import Mathlib

/-!
Shallow embedding of the client-side logic of the pastef-mass-frontend
single-page application:

* phone normalization and the phone validity check
  (src/pages/Login.tsx, src/pages/VerifyOtp.tsx);
* the OTP code field (digit filtering and truncation) and the
  verify-OTP submit transition (src/pages/VerifyOtp.tsx);
* the reactive boolean-flag corrections and the cross-field validation
  of the profile and public sign-up forms
  (src/pages/Profile.tsx, src/pages/PublicSignup.tsx);
* the role-gated admin mutations and their refresh behaviour
  (src/pages/AdminDashboard.tsx).

Strings are modelled by their character lists (`String.data`); the
JavaScript regexes used by the pages are anchored (`^...$`), so each
translates to a structural test on the character list.
-/

/-- The character class of the JavaScript regex `\s` (whitespace), as used by
`raw.replace(/\s+/g, "")` in `normalizePhone` (Login.tsx line 27). -/
def jsWhitespace (c : Char) : Bool :=
  c == ' ' || c == '\t' || c == '\n' || c == '\r' ||
  c.val == 0x0b || c.val == 0x0c || c.val == 0xa0 || c.val == 0x1680 ||
  (decide (0x2000 ≤ c.val) && decide (c.val ≤ 0x200a)) ||
  c.val == 0x2028 || c.val == 0x2029 || c.val == 0x202f ||
  c.val == 0x205f || c.val == 0x3000 || c.val == 0xfeff

/-- The two cleaning replacements of `normalizePhone` (Login.tsx line 27):
strip all whitespace (regex `\s+`) and all hyphens. -/
def cleanPhoneL (l : List Char) : List Char :=
  l.filter (fun c => !(jsWhitespace c || c == '-'))

/-- The anchored JavaScript regex test `/^\d{9}$/.test(v)` (Login.tsx line 30). -/
def isNineDigits (v : List Char) : Bool :=
  decide (v.length = 9) && v.all Char.isDigit

/-- The anchored JavaScript regex test `/^221\d{9}$/.test(v)` (Login.tsx line 31). -/
def is221ThenNineDigits (v : List Char) : Bool :=
  v.take 3 == ['2', '2', '1'] &&
  decide ((v.drop 3).length = 9) && (v.drop 3).all Char.isDigit

/-- `normalizePhone` from src/pages/Login.tsx lines 26-33 (the same function
appears in the unnamed Login variant, src/unnamed/part_001 lines 23-35):
clean the input, return empty on empty, keep a leading `+` unchanged,
turn nine digits into `+221` + digits, turn `221` + nine digits into
`+` + digits, otherwise return the cleaned input. -/
def normalizePhoneL (l : List Char) : List Char :=
  let v := cleanPhoneL l
  if v = [] then []
  else if v.head? = some '+' then v
  else if isNineDigits v then '+' :: '2' :: '2' :: '1' :: v
  else if is221ThenNineDigits v then '+' :: v
  else v

/-- String-level wrapper of `normalizePhoneL`. -/
def normalizePhone (s : String) : String := String.mk (normalizePhoneL s.data)

/-- String-level wrapper of `cleanPhoneL`. -/
def cleanPhone (s : String) : String := String.mk (cleanPhoneL s.data)

/-- The anchored JavaScript regex test `/^\+\d{11,15}$/.test(phone)`
(Login.tsx lines 51-54, VerifyOtp.tsx lines 44-47): a leading `+`
followed by 11 to 15 digits and nothing else. -/
def isPhoneLikelyValidL (l : List Char) : Bool :=
  match l with
  | c :: rest =>
      c == '+' && decide (11 ≤ rest.length) && decide (rest.length ≤ 15) &&
      rest.all Char.isDigit
  | [] => false

/-- String-level wrapper of `isPhoneLikelyValidL`. -/
def isPhoneLikelyValid (s : String) : Bool := isPhoneLikelyValidL s.data

theorem stringMk_eq_empty_iff (l : List Char) : String.mk l = "" ↔ l = [] := by
  constructor
  · intro h
    have := congrArg String.data h
    simpa using this
  · intro h
    subst h
    rfl

theorem normalizePhone_data (s : String) :
    (normalizePhone s).data = normalizePhoneL s.data := rfl

theorem cleanPhone_data (s : String) :
    (cleanPhone s).data = cleanPhoneL s.data := rfl

/-- C5: `normalizePhone` applies, in order: strip whitespace and hyphens;
empty cleaned input returns empty; a leading `+` is kept unchanged; exactly
nine digits get the `+221` country code; `221` followed by nine digits gets
a leading `+`; anything else is returned cleaned but unchanged. In
particular `"771234567"` and `"221771234567"` both normalize to
`"+221771234567"`, that value is a fixed point, and `""` maps to `""`. -/
theorem claim_C5_normalizePhone_rules (raw : String) :
    (cleanPhone raw = "" → normalizePhone raw = "") ∧
    ((cleanPhone raw).data.head? = some '+' → normalizePhone raw = cleanPhone raw) ∧
    (cleanPhone raw ≠ "" → (cleanPhone raw).data.head? ≠ some '+' →
      isNineDigits (cleanPhone raw).data = true →
      normalizePhone raw = "+221" ++ cleanPhone raw) ∧
    (cleanPhone raw ≠ "" → (cleanPhone raw).data.head? ≠ some '+' →
      isNineDigits (cleanPhone raw).data = false →
      is221ThenNineDigits (cleanPhone raw).data = true →
      normalizePhone raw = "+" ++ cleanPhone raw) ∧
    ((cleanPhone raw).data.head? ≠ some '+' →
      isNineDigits (cleanPhone raw).data = false →
      is221ThenNineDigits (cleanPhone raw).data = false →
      normalizePhone raw = cleanPhone raw) ∧
    normalizePhone "771234567" = "+221771234567" ∧
    normalizePhone "221771234567" = "+221771234567" ∧
    normalizePhone "+221771234567" = "+221771234567" ∧
    normalizePhone "" = "" := by
  refine ⟨?_, ?_, ?_, ?_, ?_, by decide, by decide, by decide, by decide⟩
  · intro h
    rw [cleanPhone, stringMk_eq_empty_iff] at h
    apply (stringMk_eq_empty_iff _).2
    rw [normalizePhoneL]
    simp [h]
  · intro h
    rw [cleanPhone_data] at h
    have hne : cleanPhoneL raw.data ≠ [] := by
      intro hnil
      rw [hnil] at h
      simp at h
    apply String.ext
    rw [normalizePhone_data, normalizePhoneL]
    simp only [if_neg hne]
    rw [if_pos h]
    rfl
  · intro hne hplus hnine
    rw [cleanPhone_data] at hplus hnine
    have hne' : cleanPhoneL raw.data ≠ [] := by
      intro hnil
      exact hne ((stringMk_eq_empty_iff _).2 hnil)
    apply String.ext
    rw [normalizePhone_data, normalizePhoneL]
    simp only [if_neg hne']
    rw [if_neg hplus, if_pos hnine]
    rfl
  · intro hne hplus hnine h221
    rw [cleanPhone_data] at hplus hnine h221
    have hne' : cleanPhoneL raw.data ≠ [] := by
      intro hnil
      exact hne ((stringMk_eq_empty_iff _).2 hnil)
    apply String.ext
    rw [normalizePhone_data, normalizePhoneL]
    simp only [if_neg hne']
    rw [if_neg hplus, if_neg (by simp [hnine]), if_pos h221]
    rfl
  · intro hplus hnine h221
    rw [cleanPhone_data] at hplus hnine h221
    by_cases hnil : cleanPhoneL raw.data = []
    · apply String.ext
      rw [normalizePhone_data, normalizePhoneL, cleanPhone_data]
      simp [hnil]
    · apply String.ext
      rw [normalizePhone_data, normalizePhoneL]
      simp only [if_neg hnil]
      rw [if_neg hplus, if_neg (by simp [hnine]), if_neg (by simp [h221])]
      rfl

/-- Witness for C5: rule 4 (nine plain digits) fires on `"771234567"`. -/
theorem claim_C5_normalizePhone_rules_witness :
    normalizePhone "771234567" = "+221" ++ cleanPhone "771234567" :=
  (claim_C5_normalizePhone_rules "771234567").2.2.1
    (by decide) (by decide) (by decide)

/-- C6: the validity check accepts a string exactly when it is a `+`
followed by 11 to 15 digits; `"+221771234567"` passes while
`"771234567"` and `"+abc"` fail. -/
theorem claim_C6_isPhoneLikelyValid (s : String) :
    (isPhoneLikelyValid s = true ↔
      ∃ rest : List Char, s.data = '+' :: rest ∧
        11 ≤ rest.length ∧ rest.length ≤ 15 ∧ ∀ c ∈ rest, c.isDigit = true) ∧
    isPhoneLikelyValid "+221771234567" = true ∧
    isPhoneLikelyValid "771234567" = false ∧
    isPhoneLikelyValid "+abc" = false := by
  refine ⟨?_, by decide, by decide, by decide⟩
  rw [isPhoneLikelyValid]
  rcases hd : s.data with _ | ⟨c, rest⟩
  · simp [isPhoneLikelyValidL]
  · simp only [isPhoneLikelyValidL, Bool.and_eq_true, beq_iff_eq, decide_eq_true_eq,
      List.all_eq_true]
    constructor
    · rintro ⟨⟨⟨hc, h11⟩, h15⟩, hdig⟩
      exact ⟨rest, by rw [hc], h11, h15, hdig⟩
    · rintro ⟨rest', heq, h11, h15, hdig⟩
      obtain ⟨rfl, rfl⟩ : c = '+' ∧ rest = rest' := by
        constructor <;> [exact (List.cons.injEq .. ▸ heq).1; exact (List.cons.injEq .. ▸ heq).2]
      exact ⟨⟨⟨rfl, h11⟩, h15⟩, hdig⟩

/-- C9 counterexample: on the input `"77 12 34 567"` the normalizer yields
`"+221771234567"` (twelve digits after the `+`), not the spec scenario value
`"+22177123457"`. -/
theorem claim_C9_counterexample :
    normalizePhone "77 12 34 567" = "+221771234567" ∧
    normalizePhone "77 12 34 567" ≠ "+22177123457" := by
  constructor <;> decide

/-- C9 (amended): on the input `"77 12 34 567"` the normalizer strips the
spaces, keeps all nine typed digits, prefixes `+221`, and the resulting
value `"+221771234567"` passes the validity check. -/
theorem claim_C9_amended :
    normalizePhone "77 12 34 567" = "+221771234567" ∧
    (normalizePhone "77 12 34 567").data.length = 13 ∧
    isPhoneLikelyValid (normalizePhone "77 12 34 567") = true := by
  refine ⟨by decide, by decide, by decide⟩

/-- The JavaScript helper `onlyDigits` (VerifyOtp.tsx lines 24-26):
`s.replace(/\D/g, "")`, keep only the decimal digits. -/
def onlyDigitsL (l : List Char) : List Char :=
  l.filter Char.isDigit

/-- String-level wrapper of `onlyDigitsL`. -/
def onlyDigits (s : String) : String := String.mk (onlyDigitsL s.data)

/-- `codeDigits` (VerifyOtp.tsx line 35): `onlyDigits(code).slice(0, 6)`,
the first six digits of the typed code. -/
def codeDigits (code : String) : String :=
  String.mk ((onlyDigitsL code.data).take 6)

/-- `isCodeValid` (VerifyOtp.tsx line 43): the anchored JavaScript regex
test `/^\d{6}$/.test(codeDigits)`. -/
def isCodeValid (d : String) : Bool :=
  decide (d.data.length = 6) && d.data.all Char.isDigit

/-- The browser-persistent Session Store: the `token` and `phone` entries of
`localStorage` written by VerifyOtp.tsx lines 88-89. -/
structure SessionStore where
  token : Option String
  phone : Option String
deriving DecidableEq, Repr

/-- The body of a successful verify-OTP response as read by VerifyOtp.tsx
line 79: the fields `token`, `accessToken` and `jwt`, each possibly
absent. -/
structure VerifyData where
  token : Option String
  accessToken : Option String
  jwt : Option String
deriving DecidableEq, Repr

/-- JavaScript `a || b` on an optional string `a`: an absent or empty
(falsy) string falls through to `b`. -/
def jsOrString : Option String → Option String → Option String
  | some s, b => if s = "" then b else some s
  | none, b => b

/-- The token extraction of VerifyOtp.tsx line 79:
`res.data.token, or else res.data.accessToken, or else res.data.jwt, or else null`. -/
def pickToken (d : VerifyData) : Option String :=
  jsOrString d.token (jsOrString d.accessToken (jsOrString d.jwt none))

/-- The possible user-visible outcomes of the `verifyOtp` handler, split by
the error taxonomy of the spec: local validation failure, a success
response missing the token (protocol error), a failed request, and the
successful navigation to the profile view. -/
inductive VerifyOutcome where
  | validationError (msg : String)
  | protocolError (msg : String)
  | requestError
  | navigateProfile
deriving DecidableEq, Repr

/-- The network requests the VerifyOtp page can issue. -/
inductive AuthReq where
  | postVerifyOtp (phone : String) (code : String)
  | postRequestOtp (phone : String)
deriving DecidableEq, Repr

/-- The `verifyOtp` handler (VerifyOtp.tsx lines 57-102) as a transition:
given the page phone, the typed code, the server response to the (at most
one) verify request, and the current Session Store, produce the outcome,
the resulting Session Store, and the list of requests issued.  The handler
rejects locally (issuing nothing) when the phone or the six-digit code
check fails; otherwise it posts `{phone, code: codeDigits}`, and on a
success response requires a truthy token (with the accessToken and jwt
fallbacks) before writing `token` and `phone` into the store and
navigating to the profile view. -/
def verifyOtp (phone code : String) (resp : Except Unit VerifyData)
    (st : SessionStore) : VerifyOutcome × SessionStore × List AuthReq :=
  if !isPhoneLikelyValid phone then
    (.validationError "Numéro invalide. Retournez à la page de connexion.", st, [])
  else if !isCodeValid (codeDigits code) then
    (.validationError "Code invalide. Entrez les 6 chiffres reçus sur WhatsApp.", st, [])
  else
    match resp with
    | .error _ => (.requestError, st, [.postVerifyOtp phone (codeDigits code)])
    | .ok d =>
      match pickToken d with
      | none =>
          (.protocolError "Connexion réussie, mais aucun token n’a été retourné par l’API.",
           st, [.postVerifyOtp phone (codeDigits code)])
      | some t =>
          (.navigateProfile, { token := some t, phone := some phone },
           [.postVerifyOtp phone (codeDigits code)])

/-- C4 counterexample: a successful verify response that lacks the `token`
field but carries `accessToken = "abc"` does complete the transition — the
handler navigates to the profile view and the Session Store is changed —
contradicting the claim that any success response without a `token` field
leaves the store unchanged and surfaces a protocol error. -/
theorem claim_C4_counterexample :
    (verifyOtp "+221771234567" "123456"
        (.ok ⟨none, some "abc", none⟩) ⟨none, none⟩).1 = .navigateProfile ∧
    (verifyOtp "+221771234567" "123456"
        (.ok ⟨none, some "abc", none⟩) ⟨none, none⟩).2.1 ≠ ⟨none, none⟩ := by
  constructor <;> decide

/-- C4 (amended): on a successful verify response in which `token`,
`accessToken` and `jwt` are all absent or empty, the transition does not
complete: the Session Store is unchanged and the token-missing protocol
error is surfaced; on a successful response whose first truthy field among
`token`, `accessToken`, `jwt` is `t`, the store is populated with `t` and
the phone, and control passes to the profile view. -/
theorem claim_C4_amended (phone code : String) (d : VerifyData) (st : SessionStore)
    (hp : isPhoneLikelyValid phone = true)
    (hc : isCodeValid (codeDigits code) = true) :
    (pickToken d = none →
      (verifyOtp phone code (.ok d) st).2.1 = st ∧
      (verifyOtp phone code (.ok d) st).1 =
        .protocolError "Connexion réussie, mais aucun token n’a été retourné par l’API.") ∧
    (∀ t, pickToken d = some t →
      (verifyOtp phone code (.ok d) st).2.1 = ⟨some t, some phone⟩ ∧
      (verifyOtp phone code (.ok d) st).1 = .navigateProfile) := by
  constructor
  · intro hnone
    rw [verifyOtp.eq_def]
    simp [hp, hc, hnone]
  · intro t ht
    rw [verifyOtp.eq_def]
    simp [hp, hc, ht]

/-- Witness for C4 (amended), at a response with no token fields at all. -/
theorem claim_C4_amended_witness :
    (verifyOtp "+221771234567" "123456" (.ok ⟨none, none, none⟩)
        ⟨some "old", some "+221770000000"⟩).2.1 =
      ⟨some "old", some "+221770000000"⟩ :=
  ((claim_C4_amended "+221771234567" "123456" ⟨none, none, none⟩
      ⟨some "old", some "+221770000000"⟩ (by decide) (by decide)).1 (by decide)).1

/-- C7: when the effective code (the digit-filtered, six-truncated field
value) is not exactly six digits, `verifyOtp` rejects locally with a
validation error and issues no request; and any issued request implies the
effective code was exactly six digits. -/
theorem claim_C7_code_validation (phone code : String)
    (resp : Except Unit VerifyData) (st : SessionStore) :
    (isCodeValid (codeDigits code) = false →
      (verifyOtp phone code resp st).2.2 = [] ∧
      ∃ m, (verifyOtp phone code resp st).1 = .validationError m) ∧
    ((verifyOtp phone code resp st).2.2 ≠ [] →
      isCodeValid (codeDigits code) = true ∧
      (codeDigits code).data.length = 6 ∧
      (codeDigits code).data.all Char.isDigit = true) := by
  constructor
  · intro hbad
    rw [verifyOtp.eq_def]
    by_cases hp : isPhoneLikelyValid phone = true
    · simp [hp, hbad]
    · simp [Bool.not_eq_true] at hp
      simp [hp]
  · intro hreq
    by_cases hp : isPhoneLikelyValid phone = true
    · by_cases hc : isCodeValid (codeDigits code) = true
      · refine ⟨hc, ?_, ?_⟩
        · have := hc
          rw [isCodeValid, Bool.and_eq_true, decide_eq_true_eq] at this
          exact this.1
        · have := hc
          rw [isCodeValid, Bool.and_eq_true] at this
          exact this.2
      · exfalso
        apply hreq
        rw [verifyOtp.eq_def]
        simp [hp, Bool.eq_false_iff.2 hc]
    · exfalso
      apply hreq
      rw [verifyOtp.eq_def]
      simp [Bool.not_eq_true] at hp
      simp [hp]

/-- Witness for C7, at the five-digit code of the spec scenario: no
request is issued and a validation error is surfaced. -/
theorem claim_C7_code_validation_witness :
    (verifyOtp "+221771234567" "12345" (.ok ⟨some "tok", none, none⟩)
        ⟨none, none⟩).2.2 = [] :=
  ((claim_C7_code_validation "+221771234567" "12345"
      (.ok ⟨some "tok", none, none⟩) ⟨none, none⟩).1 (by decide)).1

/-- C10: the validated and submitted code value is the first six characters
of the digit-filtered input; an input containing at least six digits is
accepted by the validity check; and the submitted value always consists of
at most six characters, all digits. -/
theorem claim_C10_code_truncation (s : String) :
    codeDigits s = String.mk ((onlyDigits s).data.take 6) ∧
    (6 ≤ (onlyDigits s).data.length → isCodeValid (codeDigits s) = true) ∧
    (codeDigits s).data.length ≤ 6 ∧
    (codeDigits s).data.all Char.isDigit = true := by
  refine ⟨rfl, ?_, ?_, ?_⟩
  · intro hlen
    rw [isCodeValid, Bool.and_eq_true, decide_eq_true_eq]
    constructor
    · show ((onlyDigitsL s.data).take 6).length = 6
      rw [List.length_take]
      exact Nat.min_eq_left hlen
    · show ((onlyDigitsL s.data).take 6).all Char.isDigit = true
      rw [List.all_eq_true]
      intro c hc
      have hmem : c ∈ onlyDigitsL s.data := List.take_subset _ _ hc
      exact (List.mem_filter.1 hmem).2
  · show ((onlyDigitsL s.data).take 6).length ≤ 6
    rw [List.length_take]
    exact Nat.min_le_left _ _
  · show ((onlyDigitsL s.data).take 6).all Char.isDigit = true
    rw [List.all_eq_true]
    intro c hc
    have hmem : c ∈ onlyDigitsL s.data := List.take_subset _ _ hc
    exact (List.mem_filter.1 hmem).2

/-- Witness for C10, at an input with eight digits mixed with junk: the
first six digits are kept and accepted. -/
theorem claim_C10_code_truncation_witness :
    isCodeValid (codeDigits "12x34 5678") = true :=
  (claim_C10_code_truncation "12x34 5678").2.1 (by decide)

/-- The three mutually-constrained boolean flags of the profile and public
sign-up forms (Profile.tsx / PublicSignup.tsx form values), the projection
of the form state read and written by the two corrective effects and
tested by the `superRefine` cross-field checks. -/
structure FlagState where
  carteElecteur : Bool
  nonVote : Bool
  nonInscrit : Bool
deriving DecidableEq, Repr

/-- Toggling the `nonInscrit` switch followed by the settled reactive
corrections (Profile.tsx lines 120-134, PublicSignup.tsx lines 109-123):
when the new value is true, the `nonInscrit` effect sets `carteElecteur`
and `nonVote` to false; the cascaded `nonVote` effect then sees a false
`nonVote` and does nothing, so the state is stable. -/
def setNonInscrit (b : Bool) (s : FlagState) : FlagState :=
  let s1 : FlagState := { s with nonInscrit := b }
  if s1.nonInscrit then { s1 with carteElecteur := false, nonVote := false } else s1

/-- Toggling the `nonVote` switch followed by the settled reactive
corrections: when the new value is true, the `nonVote` effect sets
`nonInscrit` to false; the cascaded `nonInscrit` effect then sees a false
`nonInscrit` and does nothing, so the state is stable. -/
def setNonVote (b : Bool) (s : FlagState) : FlagState :=
  let s1 : FlagState := { s with nonVote := b }
  if s1.nonVote then { s1 with nonInscrit := false } else s1

/-- The issues added by the `superRefine` cross-field validation pass
(Profile.tsx lines 54-69, PublicSignup.tsx lines 50-65), as
(path, message) pairs. -/
def crossFieldIssues (s : FlagState) : List (String × String) :=
  (if s.nonInscrit && s.nonVote then
    [("nonVote", "Non inscrit et Non vote ne peuvent pas être vrais ensemble.")]
   else []) ++
  (if s.nonInscrit && s.carteElecteur then
    [("carteElecteur", "Non inscrit ⇒ Carte d’électeur = Non")]
   else [])

/-- C1: setting `nonInscrit` to true forces `carteElecteur` and `nonVote`
to false, setting `nonVote` to true forces `nonInscrit` to false, and a
validation pass run after the settled corrections reports no forbidden
combination: any `nonInscrit` toggle leaves no cross-field issue, a
`nonVote` toggle to true leaves none, and from a state already free of
issues no `nonVote` toggle can make one appear. -/
theorem claim_C1_reactive_corrections (s : FlagState) :
    ((setNonInscrit true s).carteElecteur = false ∧
     (setNonInscrit true s).nonVote = false ∧
     (setNonVote true s).nonInscrit = false) ∧
    (∀ b, crossFieldIssues (setNonInscrit b s) = []) ∧
    crossFieldIssues (setNonVote true s) = [] ∧
    (crossFieldIssues s = [] → ∀ b, crossFieldIssues (setNonVote b s) = []) := by
  obtain ⟨ce, nv, ni⟩ := s
  cases ce <;> cases nv <;> cases ni <;> decide

/-- Witness for C1: from the issue-free state with a voter card, switching
`nonVote` off leaves the validation pass clean. -/
theorem claim_C1_reactive_corrections_witness :
    crossFieldIssues (setNonVote false ⟨true, false, false⟩) = [] :=
  (claim_C1_reactive_corrections ⟨true, false, false⟩).2.2.2 (by decide) false

/-- The admin roles of AdminDashboard.tsx line 51. -/
inductive AdminRole where
  | USER
  | ADMIN
  | ADMIN_VIEW
deriving DecidableEq, Repr

/-- The network requests the admin dashboard mutation handlers can issue. -/
inductive AdminReq where
  | deleteUserReq (userId : String)
  | putRole (userId : String) (role : AdminRole)
  | putPassword (userId : String)
  | getStats
  | getUsers (page : Nat) (size : Nat)
deriving DecidableEq, Repr

/-- `canWrite` (AdminDashboard.tsx line 136): `myRole === "ADMIN"`. -/
def canWrite (myRole : AdminRole) : Bool := myRole == .ADMIN

/-- JavaScript `newPassword.trim()`: drop whitespace from both ends. -/
def jsTrim (s : String) : String :=
  String.mk (((s.data.dropWhile jsWhitespace).reverse.dropWhile jsWhitespace).reverse)

/-- The `deleteUser` handler (AdminDashboard.tsx lines 252-271) as the list
of requests it issues: it returns before any HTTP call unless `canWrite`,
then asks for confirmation, then issues the DELETE; on success it
re-fetches the stats and the current page of users in parallel. -/
def deleteUserCalls (myRole : AdminRole) (confirmOk : Bool) (deleteSucceeds : Bool)
    (userId : String) (page rowsPerPage : Nat) : List AdminReq :=
  if !canWrite myRole then []
  else if !confirmOk then []
  else if deleteSucceeds then
    [.deleteUserReq userId, .getStats, .getUsers page rowsPerPage]
  else [.deleteUserReq userId]

/-- The `submitRole` handler (AdminDashboard.tsx lines 287-312) as the list
of requests it issues: it returns before any HTTP call unless a user is
selected and `canWrite`; on success it re-fetches only the current page of
users. -/
def submitRoleCalls (myRole : AdminRole) (selectedUser : Option String)
    (newRole : AdminRole) (putSucceeds : Bool) (page rowsPerPage : Nat) :
    List AdminReq :=
  match selectedUser with
  | none => []
  | some uid =>
    if !canWrite myRole then []
    else if putSucceeds then [.putRole uid newRole, .getUsers page rowsPerPage]
    else [.putRole uid newRole]

/-- The `submitPassword` handler (AdminDashboard.tsx lines 314-342) as the
list of requests it issues: it returns before any HTTP call unless a user
is selected and `canWrite`, rejects passwords shorter than six characters
after trimming, and re-fetches nothing on success. -/
def submitPasswordCalls (myRole : AdminRole) (selectedUser : Option String)
    (newPassword : String) : List AdminReq :=
  match selectedUser with
  | none => []
  | some uid =>
    if !canWrite myRole then []
    else if decide ((jsTrim newPassword).data.length < 6) then []
    else [.putPassword uid]

/-- C2: for any caller whose role is not ADMIN (in particular ADMIN_VIEW),
`deleteUser`, `submitRole` and `submitPassword` issue no request at all:
each handler returns before any HTTP call. -/
theorem claim_C2_admin_view_guard (myRole : AdminRole) (h : myRole ≠ .ADMIN)
    (confirmOk ok : Bool) (uid : String) (sel : Option String)
    (nr : AdminRole) (pw : String) (page size : Nat) :
    deleteUserCalls myRole confirmOk ok uid page size = [] ∧
    submitRoleCalls myRole sel nr ok page size = [] ∧
    submitPasswordCalls myRole sel pw = [] := by
  have hw : canWrite myRole = false := by
    cases myRole with
    | ADMIN => exact absurd rfl h
    | USER => rfl
    | ADMIN_VIEW => rfl
  refine ⟨?_, ?_, ?_⟩
  · rw [deleteUserCalls]
    simp [hw]
  · rw [submitRoleCalls.eq_def]
    cases sel <;> simp [hw]
  · rw [submitPasswordCalls.eq_def]
    cases sel <;> simp [hw]

/-- Witness for C2: an ADMIN_VIEW caller attempting `deleteUser` issues no
request, the DELETE included. -/
theorem claim_C2_admin_view_guard_witness :
    deleteUserCalls .ADMIN_VIEW true true "u1" 0 10 = [] :=
  (claim_C2_admin_view_guard .ADMIN_VIEW (by decide) true true "u1"
    (some "u1") .USER "secret123" 0 10).1

/-- C3 counterexample: a successful `submitRole` as ADMIN re-fetches only
the current page of users — its request list contains no stats fetch —
contradicting the claim that every successful mutation re-fetches both the
stats and the user list. -/
theorem claim_C3_counterexample :
    submitRoleCalls .ADMIN (some "u1") .USER true 0 10 =
      [.putRole "u1" .USER, .getUsers 0 10] ∧
    AdminReq.getStats ∉ submitRoleCalls .ADMIN (some "u1") .USER true 0 10 := by
  constructor <;> decide

/-- C3 (amended): a successful `deleteUser` issues exactly one follow-up
call to the stats and exactly one to the current page of users; a
successful `submitRole` issues exactly one follow-up call to the current
page of users and none to the stats. -/
theorem claim_C3_amended (uid : String) (r : AdminRole) (page size : Nat) :
    deleteUserCalls .ADMIN true true uid page size =
      [.deleteUserReq uid, .getStats, .getUsers page size] ∧
    submitRoleCalls .ADMIN (some uid) r true page size =
      [.putRole uid r, .getUsers page size] := by
  constructor <;> rfl

/-- Modelled from the spec: the profile / public sign-up form variant that
carries the three optional PASTEF detail fields `pastefCardNumber`,
`pastefSection` and `coordinatorPhone` next to the `isMember` switch.  The
form code holding these fields is missing from src/ — the schemas in
Profile.tsx and PublicSignup.tsx have no such fields and only
AdminDashboard.tsx declares them, as optional read-only row fields — so
the fields and the toggle side effect are taken from spec sections 3 and
4.3. -/
structure PastefFields where
  isMember : Bool
  pastefCardNumber : String
  pastefSection : String
  coordinatorPhone : String
deriving DecidableEq, Repr

/-- Modelled from the spec: the `isMember` toggle; per spec section 4.3,
"Setting `isMember = false` clears the three optional PASTEF detail
fields". -/
def setIsMember (b : Bool) (s : PastefFields) : PastefFields :=
  if b then { s with isMember := true }
  else { isMember := false, pastefCardNumber := "", pastefSection := "",
         coordinatorPhone := "" }

/-- C8: toggling `isMember` from true to false clears `pastefCardNumber`,
`pastefSection` and `coordinatorPhone` to empty. -/
theorem claim_C8_isMember_clears (s : PastefFields) (h : s.isMember = true) :
    (setIsMember false s).pastefCardNumber = "" ∧
    (setIsMember false s).pastefSection = "" ∧
    (setIsMember false s).coordinatorPhone = "" ∧
    (setIsMember false s).isMember = false := by
  simp [setIsMember]

/-- Witness for C8, at a member with all three detail fields filled in. -/
theorem claim_C8_isMember_clears_witness :
    (setIsMember false ⟨true, "A123", "Keur Massar", "+221770000000"⟩).pastefCardNumber = "" :=
  (claim_C8_isMember_clears ⟨true, "A123", "Keur Massar", "+221770000000"⟩ (by decide)).1
